import Mathlib

/-!
Verification development for the `datawarehouse` repository
(`src/etl_processes.py`, `src/data_quality.py`).

The Python sources are shallowly embedded: pure computations become Lean
functions, database state becomes explicit stores (`Nat → Option row`),
Python numbers become `Nat`/`Int`/`Rat` (Python float arithmetic on count
ratios is modelled by exact rational arithmetic), and fallible code returns
`Except String α` or pairs a result with an `Option String` error.
Wall-clock reads (`datetime.now()`, `CURRENT_TIMESTAMP`) are passed in as an
explicit `now : Nat` parameter.
-/

/- ## Data-quality engine (`src/data_quality.py`) -/

/-- `QualityCheckType` enum (data_quality.py lines 23-28). -/
inductive QualityCheckType where
  | completeness
  | accuracy
  | consistency
  | validity
  | timeliness
deriving DecidableEq, Repr

/-- `QualityCheckResult` dataclass (data_quality.py lines 30-39).
`details` is modelled as an association list holding the numeric entries of
the Python `details` dict, in insertion order; non-numeric entries
(`validation_rules`, `reference_table`, `reference_column`, `data_type`) are
not modelled.  `check_date` is the `now` passed to the check.
`error_count` is `Int`, matching Python integer subtraction. -/
structure QualityCheckResult where
  check_type : QualityCheckType
  table_name : String
  column_name : String
  check_date : Nat
  passed : Bool
  details : List (String × Rat)
  error_count : Int
  total_count : Nat
deriving DecidableEq, Repr

/-- `DataQualityChecker.check_completeness` (data_quality.py lines 65-107),
given the two aggregates `(total_count, non_null_count)` returned by its
`COUNT` query.  Mirrors lines 81-97: the percentage is
`(non_null / total) * 100` when `total > 0`, else `0`; the threshold is 95. -/
def check_completeness (table_name column_name : String) (now : Nat)
    (total_count non_null_count : Nat) : QualityCheckResult :=
  let completeness : Rat :=
    if 0 < total_count then ((non_null_count : Rat) / (total_count : Rat)) * 100 else 0
  { check_type := QualityCheckType.completeness
    table_name := table_name
    column_name := column_name
    check_date := now
    passed := decide (95 ≤ completeness)
    details := [("completeness_percentage", completeness),
                ("null_count", (total_count : Rat) - (non_null_count : Rat)),
                ("non_null_count", (non_null_count : Rat))]
    error_count := (total_count : Int) - (non_null_count : Int)
    total_count := total_count }

/-- A value carried by one entry of the `validation_rules` dict passed to
`check_accuracy`: a number (for `min`/`max`) or a list of strings
(for `allowed_values`). -/
inductive RuleValue where
  | num (q : Rat)
  | strs (vs : List String)
deriving DecidableEq, Repr

/-- One condition of the interpolated SQL `CASE WHEN ... AND ...` built by
`check_accuracy` (data_quality.py lines 116-124): `column >= v`,
`column <= v`, or `column IN (...)`. -/
inductive ValidationCondition where
  | ge (v : RuleValue)
  | le (v : RuleValue)
  | isin (v : RuleValue)
deriving DecidableEq, Repr

/-- A SQL column value, for evaluating validation conditions in the model of
the accuracy query. -/
inductive SqlValue where
  | num (q : Rat)
  | str (s : String)
deriving DecidableEq, Repr

/-- The condition-building loop of `check_accuracy`
(data_quality.py lines 116-124): keys `min`, `max`, `allowed_values` each
append one condition; every other key appends nothing. -/
def build_validation_conditions (validation_rules : List (String × RuleValue)) :
    List ValidationCondition :=
  validation_rules.filterMap (fun kv =>
    if kv.1 = "min" then some (ValidationCondition.ge kv.2)
    else if kv.1 = "max" then some (ValidationCondition.le kv.2)
    else if kv.1 = "allowed_values" then some (ValidationCondition.isin kv.2)
    else none)

/-- The rule keys that `check_accuracy` actually turns into SQL conditions. -/
def supported_rule_key (k : String) : Bool :=
  decide (k = "min" ∨ k = "max" ∨ k = "allowed_values")

/-- SQL evaluation of one validation condition against one column value.
Type-mismatched combinations (e.g. a numeric bound against a text value),
which the Python code would turn into a type error inside PostgreSQL, are
modelled as not satisfied; the registry in the source only exercises
matching combinations. -/
def eval_condition (c : ValidationCondition) (v : SqlValue) : Bool :=
  match c, v with
  | ValidationCondition.ge (RuleValue.num m), SqlValue.num x => decide (m ≤ x)
  | ValidationCondition.le (RuleValue.num m), SqlValue.num x => decide (x ≤ m)
  | ValidationCondition.isin (RuleValue.strs vs), SqlValue.str s => vs.contains s
  | _, _ => false

/-- Result construction of `check_accuracy` (data_quality.py lines 136-154),
given the aggregates `(total_count, valid_count)`: percentage
`(valid / total) * 100` when `total > 0` else `0`, threshold 98. -/
def check_accuracy_result (table_name column_name : String) (now : Nat)
    (total_count valid_count : Nat) : QualityCheckResult :=
  let accuracy : Rat :=
    if 0 < total_count then ((valid_count : Rat) / (total_count : Rat)) * 100 else 0
  { check_type := QualityCheckType.accuracy
    table_name := table_name
    column_name := column_name
    check_date := now
    passed := decide (98 ≤ accuracy)
    details := [("accuracy_percentage", accuracy),
                ("invalid_count", (total_count : Rat) - (valid_count : Rat)),
                ("valid_count", (valid_count : Rat))]
    error_count := (total_count : Int) - (valid_count : Int)
    total_count := total_count }

/-- `DataQualityChecker.check_accuracy` (data_quality.py lines 109-164) over
the column values of `table_name.column_name`.  When the rules produce no
condition, `" AND ".join([])` is empty and the interpolated query reads
`COUNT(CASE WHEN  THEN 1 END)`, which PostgreSQL rejects: `cursor.execute`
raises, modelled as `Except.error`.  Otherwise `valid_count` counts the
values satisfying every condition. -/
def check_accuracy (table_name column_name : String)
    (validation_rules : List (String × RuleValue)) (now : Nat)
    (column_values : List SqlValue) : Except String QualityCheckResult :=
  let conds := build_validation_conditions validation_rules
  if conds.isEmpty then
    Except.error "SyntaxError: malformed query built from an empty condition list"
  else
    let total_count := column_values.length
    let valid_count :=
      (column_values.filter (fun v => conds.all (fun c => eval_condition c v))).length
    Except.ok (check_accuracy_result table_name column_name now total_count valid_count)

/-- SQL equality used in the join predicate `t.col = r.refcol`: true only
when both sides are non-NULL and equal (`NULL = x` is unknown, never true). -/
def sql_eq (a b : Option Int) : Bool :=
  match a, b with
  | some x, some y => decide (x = y)
  | _, _ => false

/-- The `orphaned_count` aggregate of `check_consistency`
(data_quality.py lines 173-179): rows of the table kept by
`LEFT JOIN reference ON t.col = r.refcol WHERE r.refcol IS NULL`, i.e. rows
whose foreign-key value SQL-equals no reference value. -/
def orphaned_count (table_values reference_values : List (Option Int)) : Nat :=
  (table_values.filter (fun v => !(reference_values.any (fun r => sql_eq v r)))).length

/-- Orphan counting as the spec reads it (spec.md §4.5, Consistency row):
only rows whose foreign key is present (non-NULL) and unmatched count.
Stated from the spec, for comparison with `orphaned_count`. -/
def spec_orphaned_count (table_values reference_values : List (Option Int)) : Nat :=
  (table_values.filter
    (fun v => v.isSome && !(reference_values.any (fun r => sql_eq v r)))).length

/-- Result construction of `check_consistency` (data_quality.py
lines 185-203), given `orphaned_count` and `total_count`: percentage
`((total - orphaned) / total) * 100` when `total > 0` else `0`; passes only
at exactly 100. -/
def check_consistency_result (table_name column_name : String) (now : Nat)
    (orphaned total_count : Nat) : QualityCheckResult :=
  let consistency : Rat :=
    if 0 < total_count then
      (((total_count : Rat) - (orphaned : Rat)) / (total_count : Rat)) * 100
    else 0
  { check_type := QualityCheckType.consistency
    table_name := table_name
    column_name := column_name
    check_date := now
    passed := decide (consistency = 100)
    details := [("consistency_percentage", consistency),
                ("orphaned_count", (orphaned : Rat))]
    error_count := (orphaned : Int)
    total_count := total_count }

/-- `DataQualityChecker.check_consistency` (data_quality.py lines 166-213)
over the foreign-key column of the table and the referenced column of the
reference table. -/
def check_consistency (table_name column_name : String) (now : Nat)
    (table_values reference_values : List (Option Int)) : QualityCheckResult :=
  check_consistency_result table_name column_name now
    (orphaned_count table_values reference_values) table_values.length

/-- Result construction of `check_validity` (data_quality.py lines 242-260),
given the aggregates `(total_count, valid_count)` of the type-check query:
percentage `(valid / total) * 100` when `total > 0` else `0`; passes only at
exactly 100. -/
def check_validity_result (table_name column_name : String) (now : Nat)
    (total_count valid_count : Nat) : QualityCheckResult :=
  let validity : Rat :=
    if 0 < total_count then ((valid_count : Rat) / (total_count : Rat)) * 100 else 0
  { check_type := QualityCheckType.validity
    table_name := table_name
    column_name := column_name
    check_date := now
    passed := decide (validity = 100)
    details := [("validity_percentage", validity),
                ("invalid_count", (total_count : Rat) - (valid_count : Rat)),
                ("valid_count", (valid_count : Rat))]
    error_count := (total_count : Int) - (valid_count : Int)
    total_count := total_count }

/-- `DataQualityChecker.check_validity` (data_quality.py lines 215-270):
the `data_type` dispatch raises `ValueError` for anything other than
`numeric` or `date` (lines 236-237); otherwise the query supplies
`(total_count, valid_count)` and the result is built. -/
def check_validity (table_name column_name data_type : String) (now : Nat)
    (total_count valid_count : Nat) : Except String QualityCheckResult :=
  if data_type = "numeric" ∨ data_type = "date" then
    Except.ok (check_validity_result table_name column_name now total_count valid_count)
  else
    Except.error ("ValueError: Unsupported data type: " ++ data_type)

/-- `DataQualityChecker.check_timeliness` (data_quality.py lines 272-315),
given the aggregates `(total_count, recent_count)`: percentage
`(recent / total) * 100` when `total > 0` else `0`, threshold 95. -/
def check_timeliness (table_name date_column : String) (max_age_hours : Nat)
    (now : Nat) (total_count recent_count : Nat) : QualityCheckResult :=
  let timeliness : Rat :=
    if 0 < total_count then ((recent_count : Rat) / (total_count : Rat)) * 100 else 0
  { check_type := QualityCheckType.timeliness
    table_name := table_name
    column_name := date_column
    check_date := now
    passed := decide (95 ≤ timeliness)
    details := [("timeliness_percentage", timeliness),
                ("outdated_count", (total_count : Rat) - (recent_count : Rat)),
                ("recent_count", (recent_count : Rat)),
                ("max_age_hours", (max_age_hours : Rat))]
    error_count := (total_count : Int) - (recent_count : Int)
    total_count := total_count }

/-- The spec reading of `passed` as a pure function of
`(error_count, total_count, kind-specific threshold)` (spec.md §3, §4.5).
The non-error ratio is `((total - error) / total) * 100` when `total > 0`,
else `0`.  Stated from the spec, for comparison with the checks above. -/
def spec_passed_of_counts (k : QualityCheckType) (error_count : Int)
    (total_count : Nat) : Bool :=
  let pct : Rat :=
    if 0 < total_count then
      (((total_count : Rat) - (error_count : Rat)) / (total_count : Rat)) * 100
    else 0
  match k with
  | QualityCheckType.completeness => decide (95 ≤ pct)
  | QualityCheckType.accuracy => decide (98 ≤ pct)
  | QualityCheckType.consistency => decide (pct = 100)
  | QualityCheckType.validity => decide (pct = 100)
  | QualityCheckType.timeliness => decide (95 ≤ pct)

/-- One flattened entry of the `check_details` list of the report
(data_quality.py lines 378-387). -/
structure CheckDetail where
  check_type : QualityCheckType
  table_name : String
  column_name : String
  passed : Bool
  error_rate : Rat
  details : List (String × Rat)
deriving DecidableEq, Repr

/-- The quality report document (data_quality.py lines 370-387). -/
structure QualityReport where
  timestamp : Nat
  total_checks : Nat
  passed_checks : Nat
  failed_checks : Nat
  check_details : List CheckDetail
deriving DecidableEq, Repr

/-- `DataQualityChecker.generate_quality_report`
(data_quality.py lines 367-396) as a pure function of the collected
results: counts, plus one flattened detail per result with
`error_rate = (error_count / total_count) * 100` when `total_count > 0`,
else `0`.  Writing the report file is the external ReportSink. -/
def generate_quality_report (now : Nat) (results : List QualityCheckResult) :
    QualityReport :=
  { timestamp := now
    total_checks := results.length
    passed_checks := (results.filter (fun r => r.passed)).length
    failed_checks := (results.filter (fun r => !r.passed)).length
    check_details := results.map (fun r =>
      { check_type := r.check_type
        table_name := r.table_name
        column_name := r.column_name
        passed := r.passed
        error_rate :=
          if 0 < r.total_count then
            ((r.error_count : Rat) / (r.total_count : Rat)) * 100
          else 0
        details := r.details }) }

/-- The mutable state of a `DataQualityChecker`: its `self.results` list. -/
structure CheckerState where
  results : List QualityCheckResult
deriving DecidableEq, Repr

/-- `DataQualityChecker.__init__` (data_quality.py line 63):
`self.results = []`. -/
def checker_init : CheckerState := { results := [] }

/-- The check loop of `run_quality_checks` (data_quality.py lines 349-357):
each registered check either executes and returns a result
(appended to `self.results`) or raises (caught, logged, and nothing
appended).  One entry of `outcomes` models the execution outcome of one
registered check, in registry order. -/
def run_checks_loop (results : List QualityCheckResult)
    (outcomes : List (Except String QualityCheckResult)) :
    List QualityCheckResult :=
  outcomes.foldl (fun acc o =>
    match o with
    | Except.ok r => acc ++ [r]
    | Except.error _ => acc) results

/-- `DataQualityChecker.run_quality_checks` (data_quality.py lines 317-365):
runs every registered check over the current checker state (appending each
successful result to `self.results`, skipping the ones that raise), then
generates the quality report from `self.results`. -/
def run_quality_checks (st : CheckerState)
    (outcomes : List (Except String QualityCheckResult)) (now : Nat) :
    CheckerState × QualityReport :=
  let st' : CheckerState := { results := run_checks_loop st.results outcomes }
  (st', generate_quality_report now st'.results)

/-- A sample successful check result, used to instantiate closed theorems:
a completeness check over 100 rows, none NULL. -/
def sample_result : QualityCheckResult :=
  check_completeness "core.customer" "email" 0 100 100

/- ## ETL pipeline (`src/etl_processes.py`) -/

/-- One row of the transformed transaction batch, the tuple bound by the
`INSERT INTO staging.transactions` statement
(etl_processes.py lines 160-175).  Dates and times are day/second numbers,
`amount` is a number, `status` a string. -/
structure TransactionRow where
  transaction_id : Nat
  transaction_date : Nat
  transaction_time : Nat
  branch_id : Nat
  customer_id : Nat
  product_id : Nat
  amount : Rat
  transaction_type_id : Nat
  employee_id : Nat
  channel_id : Nat
  status : String
  is_weekend : Bool
  is_holiday : Bool
deriving DecidableEq, Repr

/-- One stored row of `staging.transactions`: the inserted columns plus the
`last_updated` stamp, which the INSERT leaves at its default (`none`) and
the ON CONFLICT update sets to `CURRENT_TIMESTAMP`. -/
structure StoredTransaction where
  transaction_id : Nat
  transaction_date : Nat
  transaction_time : Nat
  branch_id : Nat
  customer_id : Nat
  product_id : Nat
  amount : Rat
  transaction_type_id : Nat
  employee_id : Nat
  channel_id : Nat
  status : String
  is_weekend : Bool
  is_holiday : Bool
  last_updated : Option Nat
deriving DecidableEq, Repr

/-- The INSERT arm of the transaction upsert (etl_processes.py
lines 160-166): every bound column taken from the row, `last_updated` left
at its default. -/
def insertTransaction (r : TransactionRow) : StoredTransaction :=
  { transaction_id := r.transaction_id
    transaction_date := r.transaction_date
    transaction_time := r.transaction_time
    branch_id := r.branch_id
    customer_id := r.customer_id
    product_id := r.product_id
    amount := r.amount
    transaction_type_id := r.transaction_type_id
    employee_id := r.employee_id
    channel_id := r.channel_id
    status := r.status
    is_weekend := r.is_weekend
    is_holiday := r.is_holiday
    last_updated := none }

/-- The `ON CONFLICT (transaction_id) DO UPDATE` arm (etl_processes.py
lines 167-169): only `status` and `last_updated` are overwritten. -/
def updateTransactionOnConflict (old : StoredTransaction) (r : TransactionRow)
    (now : Nat) : StoredTransaction :=
  { old with status := r.status, last_updated := some now }

/-- One row of the transformed customer batch, the tuple bound by the
`INSERT INTO staging.customers` statement (etl_processes.py
lines 195-214). -/
structure CustomerRow where
  customer_id : Nat
  first_name : String
  last_name : String
  date_of_birth : Nat
  address : String
  city : String
  state : String
  zip_code : String
  email : String
  phone : String
  customer_segment_id : Nat
  acquisition_date : Nat
  last_interaction_date : Nat
  satisfaction_score : Int
  nps_score : Int
  status : String
  age : Int
  customer_tenure_days : Int
deriving DecidableEq, Repr

/-- One stored row of `staging.customers`: the inserted columns plus the
`last_updated` stamp. -/
structure StoredCustomer where
  customer_id : Nat
  first_name : String
  last_name : String
  date_of_birth : Nat
  address : String
  city : String
  state : String
  zip_code : String
  email : String
  phone : String
  customer_segment_id : Nat
  acquisition_date : Nat
  last_interaction_date : Nat
  satisfaction_score : Int
  nps_score : Int
  status : String
  age : Int
  customer_tenure_days : Int
  last_updated : Option Nat
deriving DecidableEq, Repr

/-- The INSERT arm of the customer upsert (etl_processes.py
lines 195-201). -/
def insertCustomer (r : CustomerRow) : StoredCustomer :=
  { customer_id := r.customer_id
    first_name := r.first_name
    last_name := r.last_name
    date_of_birth := r.date_of_birth
    address := r.address
    city := r.city
    state := r.state
    zip_code := r.zip_code
    email := r.email
    phone := r.phone
    customer_segment_id := r.customer_segment_id
    acquisition_date := r.acquisition_date
    last_interaction_date := r.last_interaction_date
    satisfaction_score := r.satisfaction_score
    nps_score := r.nps_score
    status := r.status
    age := r.age
    customer_tenure_days := r.customer_tenure_days
    last_updated := none }

/-- The `ON CONFLICT (customer_id) DO UPDATE` arm (etl_processes.py
lines 202-207): only `last_interaction_date`, `satisfaction_score`,
`nps_score`, `status` and `last_updated` are overwritten. -/
def updateCustomerOnConflict (old : StoredCustomer) (r : CustomerRow)
    (now : Nat) : StoredCustomer :=
  { old with
    last_interaction_date := r.last_interaction_date
    satisfaction_score := r.satisfaction_score
    nps_score := r.nps_score
    status := r.status
    last_updated := some now }

/-- A staging table keyed by the primary identifier. -/
abbrev StagingTable (Stored : Type) := Nat → Option Stored

/-- The staging table before any load. -/
def empty_table {Stored : Type} : StagingTable Stored := fun _ => none

/-- One `INSERT ... ON CONFLICT ... DO UPDATE` statement against a staging
table, parameterised by the row key, the INSERT arm and the DO UPDATE arm:
absent key inserts, present key applies only the conflict update. -/
def upsert_into {Row Stored : Type} (key : Row → Nat) (ins : Row → Stored)
    (upd : Stored → Row → Nat → Stored) (s : StagingTable Stored) (r : Row)
    (now : Nat) : StagingTable Stored :=
  fun k =>
    if k = key r then
      some (match s (key r) with
        | none => ins r
        | some old => upd old r now)
    else s k

/-- The cursor loop of a loader (etl_processes.py lines 159-175 and
194-214): executes one upsert per row against the pending transaction
state; `fail` models a per-row failure of `cursor.execute`, which raises. -/
def load_rows {Row Stored : Type} (key : Row → Nat) (ins : Row → Stored)
    (upd : Stored → Row → Nat → Stored) (fail : Row → Bool) (now : Nat)
    (pending : StagingTable Stored) : List Row → Except String (StagingTable Stored)
  | [] => Except.ok pending
  | r :: rest =>
    if fail r then Except.error "LoadError"
    else load_rows key ins upd fail now (upsert_into key ins upd pending r now) rest

/-- The success-path effect of a loader: every row of the batch upserted in
order. -/
def apply_rows {Row Stored : Type} (key : Row → Nat) (ins : Row → Stored)
    (upd : Stored → Row → Nat → Stored) (now : Nat)
    (s : StagingTable Stored) : List Row → StagingTable Stored
  | [] => s
  | r :: rest => apply_rows key ins upd now (upsert_into key ins upd s r now) rest

/-- A whole loader call (etl_processes.py lines 152-185 / 187-224): the row
loop runs inside one database transaction; on success `conn.commit()` makes
the pending state the committed state, on any row failure `conn.rollback()`
discards it, the committed state is unchanged, and the error propagates
(returned alongside the state). -/
def load_batch {Row Stored : Type} (key : Row → Nat) (ins : Row → Stored)
    (upd : Stored → Row → Nat → Stored) (fail : Row → Bool) (now : Nat)
    (committed : StagingTable Stored) (batch : List Row) :
    StagingTable Stored × Option String :=
  match load_rows key ins upd fail now committed batch with
  | Except.ok pending => (pending, none)
  | Except.error e => (committed, some e)

/-- One upsert of `ETLProcess.load_transactions`. -/
def upsert_transaction (s : StagingTable StoredTransaction) (r : TransactionRow)
    (now : Nat) : StagingTable StoredTransaction :=
  upsert_into TransactionRow.transaction_id insertTransaction
    updateTransactionOnConflict s r now

/-- `ETLProcess.load_transactions` (etl_processes.py lines 152-185). -/
def load_transactions (committed : StagingTable StoredTransaction)
    (batch : List TransactionRow) (now : Nat) (fail : TransactionRow → Bool) :
    StagingTable StoredTransaction × Option String :=
  load_batch TransactionRow.transaction_id insertTransaction
    updateTransactionOnConflict fail now committed batch

/-- One upsert of `ETLProcess.load_customers`. -/
def upsert_customer (s : StagingTable StoredCustomer) (r : CustomerRow)
    (now : Nat) : StagingTable StoredCustomer :=
  upsert_into CustomerRow.customer_id insertCustomer
    updateCustomerOnConflict s r now

/-- `ETLProcess.load_customers` (etl_processes.py lines 187-224). -/
def load_customers (committed : StagingTable StoredCustomer)
    (batch : List CustomerRow) (now : Nat) (fail : CustomerRow → Bool) :
    StagingTable StoredCustomer × Option String :=
  load_batch CustomerRow.customer_id insertCustomer
    updateCustomerOnConflict fail now committed batch

/-- One extracted customer record (etl_processes.py lines 82-99), before
`transform_customers` adds the derived columns.  Dates are day numbers. -/
structure RawCustomerRow where
  customer_id : Nat
  first_name : String
  last_name : String
  date_of_birth : Nat
  address : String
  city : String
  state : String
  zip_code : String
  email : String
  phone : String
  customer_segment_id : Nat
  acquisition_date : Nat
  last_interaction_date : Nat
  satisfaction_score : Int
  nps_score : Int
  status : String
deriving DecidableEq, Repr

/-- The attributes a pandas timedelta `.dt` accessor (TimedeltaProperties)
actually exposes; notably there is no `years` attribute. -/
def timedelta_dt_attrs : List String :=
  ["days", "seconds", "microseconds", "nanoseconds", "components"]

/-- Attribute access `(<datetime> - <date column>).dt.<attr>` on a pandas
timedelta column (etl_processes.py lines 139-140).  Deltas are modelled in
whole days, so `days` is the delta itself and the sub-day components are 0;
an attribute outside the accessor raises `AttributeError`. -/
def timedelta_dt_column (attr : String) (col : List Int) :
    Except String (List Int) :=
  if attr ∈ timedelta_dt_attrs then
    Except.ok (if attr = "days" then col else col.map (fun _ => 0))
  else
    Except.error ("AttributeError: TimedeltaProperties object has no attribute " ++ attr)

/-- Assembling one transformed customer row from a raw row and the two
derived column values. -/
def mk_customer_row (r : RawCustomerRow) (age tenure : Int) : CustomerRow :=
  { customer_id := r.customer_id
    first_name := r.first_name
    last_name := r.last_name
    date_of_birth := r.date_of_birth
    address := r.address
    city := r.city
    state := r.state
    zip_code := r.zip_code
    email := r.email
    phone := r.phone
    customer_segment_id := r.customer_segment_id
    acquisition_date := r.acquisition_date
    last_interaction_date := r.last_interaction_date
    satisfaction_score := r.satisfaction_score
    nps_score := r.nps_score
    status := r.status
    age := age
    customer_tenure_days := tenure }

/-- `ETLProcess.transform_customers` (etl_processes.py lines 130-150).
The date conversions (lines 134-136) are identities in the model; line 139
computes the `age` column as `(datetime.now() - date_of_birth).dt.years`,
line 140 the `customer_tenure_days` column as
`(datetime.now() - acquisition_date).dt.days`, and lines 143-144 keep only
rows whose scores lie in `[0, 10]`.  Any exception is logged and
re-raised. -/
def transform_customers (now : Nat) (df : List RawCustomerRow) :
    Except String (List CustomerRow) := do
  let ages ← timedelta_dt_column "years"
    (df.map (fun r => (now : Int) - (r.date_of_birth : Int)))
  let tenures ← timedelta_dt_column "days"
    (df.map (fun r => (now : Int) - (r.acquisition_date : Int)))
  let enriched := (df.zip (ages.zip tenures)).map
    (fun p => mk_customer_row p.1 p.2.1 p.2.2)
  Except.ok (enriched.filter (fun c =>
    decide (0 ≤ c.satisfaction_score ∧ c.satisfaction_score ≤ 10) &&
    decide (0 ≤ c.nps_score ∧ c.nps_score ≤ 10)))

/-- The six stages `run_daily_etl` attempts, in source order
(etl_processes.py lines 226-246). -/
inductive EtlStep where
  | extractTransactions
  | transformTransactions
  | loadTransactions
  | extractCustomers
  | transformCustomers
  | loadCustomers
deriving DecidableEq, Repr

/-- The source order of the pipeline stages (etl_processes.py
lines 231-241): the whole transaction sub-pipeline, then the whole customer
sub-pipeline. -/
def pipeline_steps : List EtlStep :=
  [EtlStep.extractTransactions, EtlStep.transformTransactions,
   EtlStep.loadTransactions, EtlStep.extractCustomers,
   EtlStep.transformCustomers, EtlStep.loadCustomers]

/-- Sequential execution of the given stages: each stage is attempted in
order; the first stage whose outcome `ok` is `false` raises, and the
surrounding `try` of `run_daily_etl` only logs and re-raises
(lines 244-246), so no later stage runs.  Returns the attempted stages and
the stage whose exception propagated, if any. -/
def run_etl_steps (ok : EtlStep → Bool) : List EtlStep → List EtlStep × Option EtlStep
  | [] => ([], none)
  | s :: rest =>
    if ok s then
      let r := run_etl_steps ok rest
      (s :: r.1, r.2)
    else ([s], some s)

/-- `ETLProcess.run_daily_etl` (etl_processes.py lines 226-246), abstracted
over the success (`true`) or failure (`false`) of each stage. -/
def run_daily_etl (ok : EtlStep → Bool) : List EtlStep × Option EtlStep :=
  run_etl_steps ok pipeline_steps

/-- A stage-outcome assignment where only `load_transactions` raises
(a LoadError inside the transaction sub-pipeline). -/
def etl_load_transactions_fails : EtlStep → Bool :=
  fun s => !(decide (s = EtlStep.loadTransactions))

/-- A sample transformed transaction row. -/
def sample_transaction : TransactionRow :=
  { transaction_id := 1
    transaction_date := 20100
    transaction_time := 3600
    branch_id := 4
    customer_id := 5
    product_id := 6
    amount := 7
    transaction_type_id := 8
    employee_id := 9
    channel_id := 10
    status := "COMPLETED"
    is_weekend := false
    is_holiday := false }

/-- A sample stored transaction row sharing the key of `sample_transaction` but
differing elsewhere, to exercise the conflict arm. -/
def sample_stored_transaction : StoredTransaction :=
  { transaction_id := 1
    transaction_date := 19000
    transaction_time := 60
    branch_id := 40
    customer_id := 50
    product_id := 60
    amount := 70
    transaction_type_id := 80
    employee_id := 90
    channel_id := 100
    status := "PENDING"
    is_weekend := true
    is_holiday := true
    last_updated := some 3 }

/-- A staging table holding only `sample_stored_transaction`. -/
def sample_transaction_table : StagingTable StoredTransaction :=
  fun k => if k = 1 then some sample_stored_transaction else none

/-- A sample transformed customer row. -/
def sample_customer : CustomerRow :=
  { customer_id := 2
    first_name := "Ada"
    last_name := "Lovelace"
    date_of_birth := 100
    address := "1 Main St"
    city := "Springfield"
    state := "IL"
    zip_code := "62701"
    email := "ada@example.com"
    phone := "555-0100"
    customer_segment_id := 3
    acquisition_date := 19500
    last_interaction_date := 20000
    satisfaction_score := 9
    nps_score := 8
    status := "ACTIVE"
    age := 12000
    customer_tenure_days := 600 }

/-- A sample stored customer row sharing the key of `sample_customer` but
differing elsewhere, to exercise the conflict arm. -/
def sample_stored_customer : StoredCustomer :=
  { customer_id := 2
    first_name := "Grace"
    last_name := "Hopper"
    date_of_birth := 90
    address := "2 Oak Ave"
    city := "Arlington"
    state := "VA"
    zip_code := "22201"
    email := "grace@example.com"
    phone := "555-0101"
    customer_segment_id := 4
    acquisition_date := 19400
    last_interaction_date := 19900
    satisfaction_score := 5
    nps_score := 4
    status := "PENDING"
    age := 13000
    customer_tenure_days := 700
    last_updated := some 2 }

/-- A staging table holding only `sample_stored_customer`. -/
def sample_customer_table : StagingTable StoredCustomer :=
  fun k => if k = 2 then some sample_stored_customer else none

/- ## Theorems -/

theorem completeness_passed_iff (t c : String) (now total nonNull : Nat) :
    (check_completeness t c now total nonNull).passed = true ↔
      (0 < total ∧ (95 : Rat) ≤ ((nonNull : Rat) / (total : Rat)) * 100) := by
  by_cases h : 0 < total
  · simp [check_completeness, h, decide_eq_true_iff]
  · have h0 : total = 0 := Nat.eq_zero_of_not_pos h
    subst h0
    simp [check_completeness]

theorem accuracy_passed_iff (t c : String) (now total valid : Nat) :
    (check_accuracy_result t c now total valid).passed = true ↔
      (0 < total ∧ (98 : Rat) ≤ ((valid : Rat) / (total : Rat)) * 100) := by
  by_cases h : 0 < total
  · simp [check_accuracy_result, h, decide_eq_true_iff]
  · have h0 : total = 0 := Nat.eq_zero_of_not_pos h
    subst h0
    simp [check_accuracy_result]

theorem consistency_passed_iff (t c : String) (now orphaned total : Nat) :
    (check_consistency_result t c now orphaned total).passed = true ↔
      (0 < total ∧ (((total : Rat) - (orphaned : Rat)) / (total : Rat)) * 100 = 100) := by
  by_cases h : 0 < total
  · simp [check_consistency_result, h, decide_eq_true_iff]
  · have h0 : total = 0 := Nat.eq_zero_of_not_pos h
    subst h0
    simp [check_consistency_result]

theorem validity_passed_iff (t c : String) (now total valid : Nat) :
    (check_validity_result t c now total valid).passed = true ↔
      (0 < total ∧ ((valid : Rat) / (total : Rat)) * 100 = 100) := by
  by_cases h : 0 < total
  · simp [check_validity_result, h, decide_eq_true_iff]
  · have h0 : total = 0 := Nat.eq_zero_of_not_pos h
    subst h0
    simp [check_validity_result]

theorem timeliness_passed_iff (t dc : String) (mah now total recent : Nat) :
    (check_timeliness t dc mah now total recent).passed = true ↔
      (0 < total ∧ (95 : Rat) ≤ ((recent : Rat) / (total : Rat)) * 100) := by
  by_cases h : 0 < total
  · simp [check_timeliness, h, decide_eq_true_iff]
  · have h0 : total = 0 := Nat.eq_zero_of_not_pos h
    subst h0
    simp [check_timeliness]

theorem completeness_passed_pure (t c : String) (now total nonNull : Nat) :
    (check_completeness t c now total nonNull).passed =
      spec_passed_of_counts QualityCheckType.completeness
        (check_completeness t c now total nonNull).error_count
        (check_completeness t c now total nonNull).total_count := by
  by_cases h : 0 < total
  · simp only [check_completeness, spec_passed_of_counts, h, if_true]
    have key : ((total : Rat) - (((total : Int) - (nonNull : Int) : Int) : Rat))
        = (nonNull : Rat) := by
      push_cast
      ring
    rw [key]
  · simp only [check_completeness, spec_passed_of_counts, h, if_false]

theorem accuracy_passed_pure (t c : String) (now total valid : Nat) :
    (check_accuracy_result t c now total valid).passed =
      spec_passed_of_counts QualityCheckType.accuracy
        (check_accuracy_result t c now total valid).error_count
        (check_accuracy_result t c now total valid).total_count := by
  by_cases h : 0 < total
  · simp only [check_accuracy_result, spec_passed_of_counts, h, if_true]
    have key : ((total : Rat) - (((total : Int) - (valid : Int) : Int) : Rat))
        = (valid : Rat) := by
      push_cast
      ring
    rw [key]
  · simp only [check_accuracy_result, spec_passed_of_counts, h, if_false]

theorem consistency_passed_pure (t c : String) (now orphaned total : Nat) :
    (check_consistency_result t c now orphaned total).passed =
      spec_passed_of_counts QualityCheckType.consistency
        (check_consistency_result t c now orphaned total).error_count
        (check_consistency_result t c now orphaned total).total_count := by
  by_cases h : 0 < total
  · simp only [check_consistency_result, spec_passed_of_counts, h, if_true]
    have key : ((total : Rat) - (((orphaned : Int) : Int) : Rat))
        = ((total : Rat) - (orphaned : Rat)) := by
      push_cast
      ring
    rw [key]
  · simp only [check_consistency_result, spec_passed_of_counts, h, if_false]

theorem validity_passed_pure (t c : String) (now total valid : Nat) :
    (check_validity_result t c now total valid).passed =
      spec_passed_of_counts QualityCheckType.validity
        (check_validity_result t c now total valid).error_count
        (check_validity_result t c now total valid).total_count := by
  by_cases h : 0 < total
  · simp only [check_validity_result, spec_passed_of_counts, h, if_true]
    have key : ((total : Rat) - (((total : Int) - (valid : Int) : Int) : Rat))
        = (valid : Rat) := by
      push_cast
      ring
    rw [key]
  · simp only [check_validity_result, spec_passed_of_counts, h, if_false]

theorem timeliness_passed_pure (t dc : String) (mah now total recent : Nat) :
    (check_timeliness t dc mah now total recent).passed =
      spec_passed_of_counts QualityCheckType.timeliness
        (check_timeliness t dc mah now total recent).error_count
        (check_timeliness t dc mah now total recent).total_count := by
  by_cases h : 0 < total
  · simp only [check_timeliness, spec_passed_of_counts, h, if_true]
    have key : ((total : Rat) - (((total : Int) - (recent : Int) : Int) : Rat))
        = (recent : Rat) := by
      push_cast
      ring
    rw [key]
  · simp only [check_timeliness, spec_passed_of_counts, h, if_false]

/-- C2: for every check kind, `passed` equals "the ratio meets the
kind-specific threshold": completeness passes iff non-null/total ≥ 95%,
accuracy iff valid/total ≥ 98%, consistency iff (total − orphaned)/total is
exactly 100%, validity iff valid/total is exactly 100%, timeliness iff
recent/total ≥ 95% (a zero-row ratio is 0, so the conditions carry
`0 < total`); and each `passed` value is the pure function
`spec_passed_of_counts` of the result fields `error_count` and
`total_count` together with the kind-specific threshold. -/
theorem c2_passed_matches_thresholds :
    (∀ (t c : String) (now total nonNull : Nat),
      (check_completeness t c now total nonNull).passed = true ↔
        (0 < total ∧ (95 : Rat) ≤ ((nonNull : Rat) / (total : Rat)) * 100)) ∧
    (∀ (t c : String) (now total valid : Nat),
      (check_accuracy_result t c now total valid).passed = true ↔
        (0 < total ∧ (98 : Rat) ≤ ((valid : Rat) / (total : Rat)) * 100)) ∧
    (∀ (t c : String) (now orphaned total : Nat),
      (check_consistency_result t c now orphaned total).passed = true ↔
        (0 < total ∧ (((total : Rat) - (orphaned : Rat)) / (total : Rat)) * 100 = 100)) ∧
    (∀ (t c : String) (now total valid : Nat),
      (check_validity_result t c now total valid).passed = true ↔
        (0 < total ∧ ((valid : Rat) / (total : Rat)) * 100 = 100)) ∧
    (∀ (t dc : String) (mah now total recent : Nat),
      (check_timeliness t dc mah now total recent).passed = true ↔
        (0 < total ∧ (95 : Rat) ≤ ((recent : Rat) / (total : Rat)) * 100)) ∧
    (∀ (t c : String) (now total nonNull : Nat),
      (check_completeness t c now total nonNull).passed =
        spec_passed_of_counts QualityCheckType.completeness
          (check_completeness t c now total nonNull).error_count
          (check_completeness t c now total nonNull).total_count) ∧
    (∀ (t c : String) (now total valid : Nat),
      (check_accuracy_result t c now total valid).passed =
        spec_passed_of_counts QualityCheckType.accuracy
          (check_accuracy_result t c now total valid).error_count
          (check_accuracy_result t c now total valid).total_count) ∧
    (∀ (t c : String) (now orphaned total : Nat),
      (check_consistency_result t c now orphaned total).passed =
        spec_passed_of_counts QualityCheckType.consistency
          (check_consistency_result t c now orphaned total).error_count
          (check_consistency_result t c now orphaned total).total_count) ∧
    (∀ (t c : String) (now total valid : Nat),
      (check_validity_result t c now total valid).passed =
        spec_passed_of_counts QualityCheckType.validity
          (check_validity_result t c now total valid).error_count
          (check_validity_result t c now total valid).total_count) ∧
    (∀ (t dc : String) (mah now total recent : Nat),
      (check_timeliness t dc mah now total recent).passed =
        spec_passed_of_counts QualityCheckType.timeliness
          (check_timeliness t dc mah now total recent).error_count
          (check_timeliness t dc mah now total recent).total_count) :=
  ⟨completeness_passed_iff, accuracy_passed_iff, consistency_passed_iff,
   validity_passed_iff, timeliness_passed_iff, completeness_passed_pure,
   accuracy_passed_pure, consistency_passed_pure, validity_passed_pure,
   timeliness_passed_pure⟩

/-- C5: for every check kind, including consistency and validity, a result
computed over `total_count = 0` has its percentage detail equal to 0 (never
a vacuous 100) and `passed = false`, whatever the other aggregate is. -/
theorem c5_zero_rows_ratio_zero_and_fail :
    ∀ (t c dc : String) (now x mah : Nat),
      ((check_completeness t c now 0 x).passed = false ∧
        ("completeness_percentage", (0 : Rat)) ∈ (check_completeness t c now 0 x).details) ∧
      ((check_accuracy_result t c now 0 x).passed = false ∧
        ("accuracy_percentage", (0 : Rat)) ∈ (check_accuracy_result t c now 0 x).details) ∧
      ((check_consistency_result t c now x 0).passed = false ∧
        ("consistency_percentage", (0 : Rat)) ∈ (check_consistency_result t c now x 0).details) ∧
      ((check_validity_result t c now 0 x).passed = false ∧
        ("validity_percentage", (0 : Rat)) ∈ (check_validity_result t c now 0 x).details) ∧
      ((check_timeliness t dc mah now 0 x).passed = false ∧
        ("timeliness_percentage", (0 : Rat)) ∈ (check_timeliness t dc mah now 0 x).details) := by
  intro t c dc now x mah
  refine ⟨⟨?_, ?_⟩, ⟨?_, ?_⟩, ⟨?_, ?_⟩, ⟨?_, ?_⟩, ⟨?_, ?_⟩⟩ <;>
    simp [check_completeness, check_accuracy_result, check_consistency_result,
      check_validity_result, check_timeliness]

theorem orphaned_count_split (tvals refvals : List (Option Int)) :
    orphaned_count tvals refvals =
      spec_orphaned_count tvals refvals + (tvals.filter (fun v => v.isNone)).length := by
  induction tvals with
  | nil => rfl
  | cons v rest ih =>
    cases v with
    | none =>
      have hz : ∀ r, sql_eq none r = false := fun r => rfl
      simp [orphaned_count, spec_orphaned_count, List.filter_cons, hz] at ih ⊢
      omega
    | some x =>
      by_cases hm : refvals.any (fun r => sql_eq (some x) r)
      · simp [orphaned_count, spec_orphaned_count, List.filter_cons, hm] at ih ⊢
        omega
      · simp [orphaned_count, spec_orphaned_count, List.filter_cons, hm] at ih ⊢
        omega

/-- C8 counterexample: a table whose single row has a NULL foreign key,
against a non-empty reference table.  The claim says the orphaned count
(`error_count`) counts only rows whose foreign key is present, so it should
be 0 here (as `spec_orphaned_count` computes); the check actually counts
the NULL row and reports `error_count = 1`. -/
theorem c8_counterexample :
    (check_consistency "core.transaction" "customer_id" 0 [none] [some 1]).error_count = 1 ∧
      spec_orphaned_count [none] [some 1] = 0 := by
  refine ⟨rfl, rfl⟩

/-- C8 amended: a row whose foreign-key column is NULL IS counted as an
orphan.  `error_count` equals the number of rows whose foreign key is
present but SQL-matches no reference row, PLUS the number of rows whose
foreign key is NULL: a NULL never satisfies the equality join predicate, so
the left join leaves such a row unmatched and the `IS NULL` filter counts
it. -/
theorem c8_null_fk_rows_are_orphans :
    ∀ (t c : String) (now : Nat) (tvals refvals : List (Option Int)),
      (check_consistency t c now tvals refvals).error_count =
        (orphaned_count tvals refvals : Int) ∧
      orphaned_count tvals refvals =
        spec_orphaned_count tvals refvals +
          (tvals.filter (fun v => v.isNone)).length :=
  fun _ _ _ tvals refvals => ⟨rfl, orphaned_count_split tvals refvals⟩

theorem build_conditions_drop_unsupported (rules : List (String × RuleValue)) :
    build_validation_conditions (rules.filter (fun kv => supported_rule_key kv.1)) =
      build_validation_conditions rules := by
  induction rules with
  | nil => rfl
  | cons kv rest ih =>
    simp only [build_validation_conditions] at ih ⊢
    rw [List.filter_cons]
    by_cases hb : supported_rule_key kv.1 = true
    · rw [if_pos hb, List.filterMap_cons, List.filterMap_cons, ih]
    · have hf : supported_rule_key kv.1 = false := by simpa using hb
      have hn : ¬kv.1 = "min" ∧ ¬kv.1 = "max" ∧ ¬kv.1 = "allowed_values" := by
        simpa [supported_rule_key, not_or] using hf
      rw [if_neg hb, List.filterMap_cons]
      simp only [if_neg hn.1, if_neg hn.2.1, if_neg hn.2.2]
      exact ih

/-- C10 counterexample: a `validation_rules` mapping holding only the
unsupported key `pattern`.  The claim says the check does not raise and
computes its result from the supported rules alone even when the mapping
contains no supported key; the code builds an empty condition list, the
interpolated query is malformed, and the check raises. -/
theorem c10_counterexample :
    check_accuracy "core.customer" "email"
        [("pattern", RuleValue.strs ["x"])] 0 [SqlValue.str "a"] =
      Except.error "SyntaxError: malformed query built from an empty condition list" := by
  rfl

/-- C10 amended: rule keys other than `min`, `max` and `allowed_values` are
ignored when building conditions, and the pass/fail outcome, error count
and total count are computed from the supported rules alone; but when the
mapping contains no supported key the generated query is malformed (empty
`CASE WHEN` condition) and the check raises instead of returning a
result. -/
theorem c10_unsupported_rule_keys :
    ∀ (t c : String) (rules : List (String × RuleValue)) (now : Nat)
      (vals : List SqlValue),
      build_validation_conditions rules =
        build_validation_conditions (rules.filter (fun kv => supported_rule_key kv.1)) ∧
      (check_accuracy t c rules now vals).map
          (fun r => (r.passed, r.error_count, r.total_count)) =
        (check_accuracy t c (rules.filter (fun kv => supported_rule_key kv.1)) now vals).map
          (fun r => (r.passed, r.error_count, r.total_count)) ∧
      (rules.filter (fun kv => supported_rule_key kv.1) = [] →
        ∃ e, check_accuracy t c rules now vals = Except.error e) := by
  intro t c rules now vals
  have hbc := build_conditions_drop_unsupported rules
  refine ⟨hbc.symm, ?_, ?_⟩
  · simp only [check_accuracy, hbc]
  · intro h
    refine ⟨"SyntaxError: malformed query built from an empty condition list", ?_⟩
    have hempty : build_validation_conditions rules = [] := by
      rw [← hbc, h]
      rfl
    simp [check_accuracy, hempty]

/-- C10 witness: the amended theorem applied to the concrete rules mapping
holding only the unsupported key `pattern`, discharging the no-supported-key
hypothesis there. -/
theorem c10_witness :
    ([("pattern", RuleValue.strs ["x"])].filter (fun kv => supported_rule_key kv.1)
        = ([] : List (String × RuleValue))) ∧
      ∃ e, check_accuracy "core.transaction" "status"
          [("pattern", RuleValue.strs ["x"])] 0 [] = Except.error e :=
  ⟨by rfl,
   (c10_unsupported_rule_keys "core.transaction" "status"
      [("pattern", RuleValue.strs ["x"])] 0 []).2.2 (by rfl)⟩

theorem run_checks_loop_eq (outcomes : List (Except String QualityCheckResult))
    (results : List QualityCheckResult) :
    run_checks_loop results outcomes = results ++ outcomes.filterMap Except.toOption := by
  induction outcomes generalizing results with
  | nil => simp [run_checks_loop]
  | cons o rest ih =>
    cases o with
    | ok r =>
      have hstep : run_checks_loop results (Except.ok r :: rest) =
          run_checks_loop (results ++ [r]) rest := rfl
      rw [hstep, ih]
      simp [Except.toOption, List.filterMap_cons]
    | error e =>
      have hstep : run_checks_loop results (Except.error e :: rest) =
          run_checks_loop results rest := rfl
      rw [hstep, ih]
      simp [Except.toOption, List.filterMap_cons]

/-- C4 counterexample: a run whose single registered check raises.  The
claim says the errored check is recorded in the run results and noted in
the report as an errored outcome; actually nothing is appended to
`self.results`, and the report is identical to the report of a run with no
checks at all: zero total checks, empty detail list. -/
theorem c4_counterexample :
    (run_quality_checks checker_init [Except.error "connection refused"] 0).1.results
        = [] ∧
      (run_quality_checks checker_init [Except.error "connection refused"] 0).2.total_checks
        = 0 ∧
      (run_quality_checks checker_init [Except.error "connection refused"] 0).2.check_details
        = [] :=
  ⟨rfl, rfl, rfl⟩

/-- C4 amended: a check that raises during execution is caught and logged
but NOT recorded: it is omitted from the run results and from the report
(there is no errored outcome class), while every check that executed —
before or after the errored one — appears; the report covers exactly the
successfully executed checks. -/
theorem c4_errored_checks_skipped :
    ∀ (st : CheckerState) (outcomes : List (Except String QualityCheckResult))
      (now : Nat),
      (run_quality_checks st outcomes now).1.results =
        st.results ++ outcomes.filterMap Except.toOption ∧
      (run_quality_checks st outcomes now).2.total_checks =
        st.results.length + (outcomes.filterMap Except.toOption).length ∧
      (run_quality_checks st outcomes now).2.check_details.length =
        (run_quality_checks st outcomes now).2.total_checks := by
  intro st outcomes now
  have h := run_checks_loop_eq outcomes st.results
  refine ⟨h, ?_, ?_⟩
  · show (run_checks_loop st.results outcomes).length = _
    rw [h]
    simp
  · simp [run_quality_checks, generate_quality_report]

/-- C9 counterexample: re-invoking `run_quality_checks` on the same checker
with the same single-check registry.  The claim says the second invocation
reports the same counts as the first (`total_checks = 1`); because
`self.results` persists across invocations, the second report has
`total_checks = 2`. -/
theorem c9_counterexample :
    (run_quality_checks checker_init [Except.ok sample_result] 0).2.total_checks = 1 ∧
      (run_quality_checks
          (run_quality_checks checker_init [Except.ok sample_result] 0).1
          [Except.ok sample_result] 1).2.total_checks = 2 :=
  ⟨rfl, rfl⟩

/-- C9 amended: re-invoking `run_quality_checks` accumulates: `self.results`
persists across invocations, so the second invocation appends the second
run results to the first run results, and for unchanged data its report
covers both invocations (total_checks doubles) rather than only the
registry of that run. -/
theorem c9_rerun_accumulates :
    ∀ (outcomes : List (Except String QualityCheckResult)) (now1 now2 : Nat),
      (run_quality_checks checker_init outcomes now1).2.total_checks =
        (outcomes.filterMap Except.toOption).length ∧
      (run_quality_checks (run_quality_checks checker_init outcomes now1).1
          outcomes now2).1.results =
        (run_quality_checks checker_init outcomes now1).1.results ++
          outcomes.filterMap Except.toOption ∧
      (run_quality_checks (run_quality_checks checker_init outcomes now1).1
          outcomes now2).2.total_checks =
        2 * (outcomes.filterMap Except.toOption).length := by
  intro outcomes n1 n2
  have hfirst : (run_quality_checks checker_init outcomes n1).1.results =
      outcomes.filterMap Except.toOption := by
    show run_checks_loop checker_init.results outcomes = _
    rw [run_checks_loop_eq]
    simp [checker_init]
  refine ⟨?_, run_checks_loop_eq outcomes _, ?_⟩
  · show (run_checks_loop checker_init.results outcomes).length = _
    rw [run_checks_loop_eq]
    simp [checker_init]
  · show (run_checks_loop (run_quality_checks checker_init outcomes n1).1.results
        outcomes).length = _
    rw [run_checks_loop_eq, hfirst]
    simp [two_mul]

section LoadLemmas

variable {Row Stored : Type} (key : Row → Nat) (ins : Row → Stored)
  (upd : Stored → Row → Nat → Stored)

theorem upsert_into_apply_ne (s : StagingTable Stored) (r : Row) (now k : Nat)
    (h : ¬k = key r) : upsert_into key ins upd s r now k = s k := by
  simp [upsert_into, h]

theorem upsert_into_apply_key (s : StagingTable Stored) (r : Row) (now : Nat) :
    upsert_into key ins upd s r now (key r) =
      some (match s (key r) with
        | none => ins r
        | some old => upd old r now) := by
  simp [upsert_into]

theorem apply_rows_not_mem (batch : List Row) (s : StagingTable Stored)
    (now k : Nat) (h : ¬k ∈ batch.map key) :
    apply_rows key ins upd now s batch k = s k := by
  induction batch generalizing s with
  | nil => rfl
  | cons a rest ih =>
    simp only [List.map_cons, List.mem_cons, not_or] at h
    show apply_rows key ins upd now (upsert_into key ins upd s a now) rest k = s k
    rw [ih _ h.2, upsert_into_apply_ne key ins upd s a now k h.1]

theorem apply_rows_lookup (batch : List Row) (s : StagingTable Stored) (now : Nat)
    (r : Row) (hnd : (batch.map key).Nodup) (hmem : r ∈ batch) :
    apply_rows key ins upd now s batch (key r) =
      some (match s (key r) with
        | none => ins r
        | some old => upd old r now) := by
  induction batch generalizing s with
  | nil => cases hmem
  | cons a rest ih =>
    simp only [List.map_cons, List.nodup_cons] at hnd
    rcases List.mem_cons.mp hmem with heq | hr
    · subst heq
      show apply_rows key ins upd now (upsert_into key ins upd s r now) rest (key r) = _
      rw [apply_rows_not_mem key ins upd rest _ now (key r) hnd.1,
        upsert_into_apply_key]
    · have hkne : ¬key r = key a := by
        intro hk
        exact hnd.1 (hk ▸ List.mem_map_of_mem key hr)
      show apply_rows key ins upd now (upsert_into key ins upd s a now) rest (key r) = _
      rw [ih (upsert_into key ins upd s a now) hnd.2 hr,
        upsert_into_apply_ne key ins upd s a now (key r) hkne]

theorem load_rows_no_fail (fail : Row → Bool) (now : Nat) :
    ∀ (batch : List Row) (s : StagingTable Stored),
      (∀ r ∈ batch, fail r = false) →
      load_rows key ins upd fail now s batch =
        Except.ok (apply_rows key ins upd now s batch) := by
  intro batch
  induction batch with
  | nil => intro s h; rfl
  | cons a rest ih =>
    intro s h
    have ha : fail a = false := h a (List.mem_cons_self a rest)
    have htail := ih (upsert_into key ins upd s a now)
      (fun r hr => h r (List.mem_cons_of_mem a hr))
    simp [load_rows, ha, htail, apply_rows]

theorem load_rows_fail (fail : Row → Bool) (now : Nat) :
    ∀ (batch : List Row) (s : StagingTable Stored),
      (∃ r ∈ batch, fail r = true) →
      ∃ e, load_rows key ins upd fail now s batch = Except.error e := by
  intro batch
  induction batch with
  | nil =>
    intro s h
    rcases h with ⟨r, hr, _⟩
    cases hr
  | cons a rest ih =>
    intro s h
    by_cases ha : fail a = true
    · exact ⟨"LoadError", by simp [load_rows, ha]⟩
    · have ha2 : fail a = false := by simpa using ha
      have hrest : ∃ r ∈ rest, fail r = true := by
        rcases h with ⟨r, hr, hf⟩
        rcases List.mem_cons.mp hr with heq | hr2
        · subst heq
          rw [ha2] at hf
          cases hf
        · exact ⟨r, hr2, hf⟩
      obtain ⟨e, he⟩ := ih (upsert_into key ins upd s a now) hrest
      exact ⟨e, by simp [load_rows, ha2, he]⟩

theorem load_batch_no_fail (fail : Row → Bool) (now : Nat)
    (committed : StagingTable Stored) (batch : List Row)
    (h : ∀ r ∈ batch, fail r = false) :
    load_batch key ins upd fail now committed batch =
      (apply_rows key ins upd now committed batch, none) := by
  simp [load_batch, load_rows_no_fail key ins upd fail now batch committed h]

theorem load_batch_fail (fail : Row → Bool) (now : Nat)
    (committed : StagingTable Stored) (batch : List Row)
    (h : ∃ r ∈ batch, fail r = true) :
    (load_batch key ins upd fail now committed batch).1 = committed ∧
      (load_batch key ins upd fail now committed batch).2 ≠ none := by
  obtain ⟨e, he⟩ := load_rows_fail key ins upd fail now batch committed h
  constructor <;> simp [load_batch, he]

end LoadLemmas

/-- C7: both loaders are transactional and atomic.  When no row of the
batch fails, the whole batch commits: the resulting table is every row of
the batch upserted in order and no error is raised.  When any row fails,
the whole batch rolls back: the committed table is returned unchanged and
the error propagates to the caller. -/
theorem c7_load_is_transactional :
    (∀ (committed : StagingTable StoredTransaction) (batch : List TransactionRow)
        (now : Nat) (fail : TransactionRow → Bool),
      (∀ r ∈ batch, fail r = false) →
        load_transactions committed batch now fail =
          (apply_rows TransactionRow.transaction_id insertTransaction
            updateTransactionOnConflict now committed batch, none)) ∧
    (∀ (committed : StagingTable StoredTransaction) (batch : List TransactionRow)
        (now : Nat) (fail : TransactionRow → Bool),
      (∃ r ∈ batch, fail r = true) →
        (load_transactions committed batch now fail).1 = committed ∧
          (load_transactions committed batch now fail).2 ≠ none) ∧
    (∀ (committed : StagingTable StoredCustomer) (batch : List CustomerRow)
        (now : Nat) (fail : CustomerRow → Bool),
      (∀ r ∈ batch, fail r = false) →
        load_customers committed batch now fail =
          (apply_rows CustomerRow.customer_id insertCustomer
            updateCustomerOnConflict now committed batch, none)) ∧
    (∀ (committed : StagingTable StoredCustomer) (batch : List CustomerRow)
        (now : Nat) (fail : CustomerRow → Bool),
      (∃ r ∈ batch, fail r = true) →
        (load_customers committed batch now fail).1 = committed ∧
          (load_customers committed batch now fail).2 ≠ none) :=
  ⟨fun committed batch now fail h =>
      load_batch_no_fail TransactionRow.transaction_id insertTransaction
        updateTransactionOnConflict fail now committed batch h,
    fun committed batch now fail h =>
      load_batch_fail TransactionRow.transaction_id insertTransaction
        updateTransactionOnConflict fail now committed batch h,
    fun committed batch now fail h =>
      load_batch_no_fail CustomerRow.customer_id insertCustomer
        updateCustomerOnConflict fail now committed batch h,
    fun committed batch now fail h =>
      load_batch_fail CustomerRow.customer_id insertCustomer
        updateCustomerOnConflict fail now committed batch h⟩

/-- C7 witness: the atomicity theorem applied to concrete singleton batches
over the sample staging tables, once with no row failing and once with
every row failing. -/
theorem c7_witness :
    (load_transactions sample_transaction_table [sample_transaction] 5
        (fun _ => false) =
      (apply_rows TransactionRow.transaction_id insertTransaction
        updateTransactionOnConflict 5 sample_transaction_table
        [sample_transaction], none)) ∧
    ((load_transactions sample_transaction_table [sample_transaction] 5
        (fun _ => true)).1 = sample_transaction_table ∧
      (load_transactions sample_transaction_table [sample_transaction] 5
        (fun _ => true)).2 ≠ none) ∧
    (load_customers sample_customer_table [sample_customer] 5
        (fun _ => false) =
      (apply_rows CustomerRow.customer_id insertCustomer
        updateCustomerOnConflict 5 sample_customer_table
        [sample_customer], none)) ∧
    ((load_customers sample_customer_table [sample_customer] 5
        (fun _ => true)).1 = sample_customer_table ∧
      (load_customers sample_customer_table [sample_customer] 5
        (fun _ => true)).2 ≠ none) :=
  ⟨c7_load_is_transactional.1 sample_transaction_table [sample_transaction] 5
      (fun _ => false) (fun _ _ => rfl),
    c7_load_is_transactional.2.1 sample_transaction_table [sample_transaction] 5
      (fun _ => true) ⟨sample_transaction, List.mem_cons_self _ _, rfl⟩,
    c7_load_is_transactional.2.2.1 sample_customer_table [sample_customer] 5
      (fun _ => false) (fun _ _ => rfl),
    c7_load_is_transactional.2.2.2 sample_customer_table [sample_customer] 5
      (fun _ => true) ⟨sample_customer, List.mem_cons_self _ _, rfl⟩⟩

/-- C1: upsert semantics of both loaders.  On a key conflict the upsert
overwrites only the mutable fields (transactions: `status`; customers:
`last_interaction_date`, `satisfaction_score`, `nps_score`, `status`) and
stamps `last_updated`, leaving every identity and creation field of the
stored row untouched; and loading a batch into an empty staging area and
then immediately re-loading the same batch leaves each stored row with its
mutable fields equal to the re-loaded (second) batch values, its
`last_updated` stamped at the second load, and its immutable fields equal
to the first batch values. -/
theorem c1_upsert_overwrites_only_mutable_fields :
    (∀ (s : StagingTable StoredTransaction) (r : TransactionRow)
        (old : StoredTransaction) (now : Nat),
      s r.transaction_id = some old →
        upsert_transaction s r now r.transaction_id = some
          { transaction_id := old.transaction_id
            transaction_date := old.transaction_date
            transaction_time := old.transaction_time
            branch_id := old.branch_id
            customer_id := old.customer_id
            product_id := old.product_id
            amount := old.amount
            transaction_type_id := old.transaction_type_id
            employee_id := old.employee_id
            channel_id := old.channel_id
            status := r.status
            is_weekend := old.is_weekend
            is_holiday := old.is_holiday
            last_updated := some now }) ∧
    (∀ (batch : List TransactionRow) (t1 t2 : Nat) (r : TransactionRow),
      (batch.map TransactionRow.transaction_id).Nodup → r ∈ batch →
        (load_transactions
            (load_transactions empty_table batch t1 (fun _ => false)).1
            batch t2 (fun _ => false)).1 r.transaction_id = some
          { transaction_id := r.transaction_id
            transaction_date := r.transaction_date
            transaction_time := r.transaction_time
            branch_id := r.branch_id
            customer_id := r.customer_id
            product_id := r.product_id
            amount := r.amount
            transaction_type_id := r.transaction_type_id
            employee_id := r.employee_id
            channel_id := r.channel_id
            status := r.status
            is_weekend := r.is_weekend
            is_holiday := r.is_holiday
            last_updated := some t2 }) ∧
    (∀ (s : StagingTable StoredCustomer) (r : CustomerRow)
        (old : StoredCustomer) (now : Nat),
      s r.customer_id = some old →
        upsert_customer s r now r.customer_id = some
          { customer_id := old.customer_id
            first_name := old.first_name
            last_name := old.last_name
            date_of_birth := old.date_of_birth
            address := old.address
            city := old.city
            state := old.state
            zip_code := old.zip_code
            email := old.email
            phone := old.phone
            customer_segment_id := old.customer_segment_id
            acquisition_date := old.acquisition_date
            last_interaction_date := r.last_interaction_date
            satisfaction_score := r.satisfaction_score
            nps_score := r.nps_score
            status := r.status
            age := old.age
            customer_tenure_days := old.customer_tenure_days
            last_updated := some now }) ∧
    (∀ (batch : List CustomerRow) (t1 t2 : Nat) (r : CustomerRow),
      (batch.map CustomerRow.customer_id).Nodup → r ∈ batch →
        (load_customers
            (load_customers empty_table batch t1 (fun _ => false)).1
            batch t2 (fun _ => false)).1 r.customer_id = some
          { customer_id := r.customer_id
            first_name := r.first_name
            last_name := r.last_name
            date_of_birth := r.date_of_birth
            address := r.address
            city := r.city
            state := r.state
            zip_code := r.zip_code
            email := r.email
            phone := r.phone
            customer_segment_id := r.customer_segment_id
            acquisition_date := r.acquisition_date
            last_interaction_date := r.last_interaction_date
            satisfaction_score := r.satisfaction_score
            nps_score := r.nps_score
            status := r.status
            age := r.age
            customer_tenure_days := r.customer_tenure_days
            last_updated := some t2 }) := by
  refine ⟨?_, ?_, ?_, ?_⟩
  · intro s r old now h
    have h1 := upsert_into_apply_key TransactionRow.transaction_id
      insertTransaction updateTransactionOnConflict s r now
    rw [h] at h1
    exact h1
  · intro batch t1 t2 r hnd hmem
    have hload1 : load_transactions empty_table batch t1 (fun _ => false) =
        (apply_rows TransactionRow.transaction_id insertTransaction
          updateTransactionOnConflict t1 empty_table batch, none) :=
      load_batch_no_fail _ _ _ _ _ _ _ (fun x _ => rfl)
    have hload2 : load_transactions
        (load_transactions empty_table batch t1 (fun _ => false)).1
        batch t2 (fun _ => false) =
        (apply_rows TransactionRow.transaction_id insertTransaction
          updateTransactionOnConflict t2
          (load_transactions empty_table batch t1 (fun _ => false)).1 batch,
          none) :=
      load_batch_no_fail _ _ _ _ _ _ _ (fun x _ => rfl)
    rw [hload2, hload1]
    show apply_rows TransactionRow.transaction_id insertTransaction
        updateTransactionOnConflict t2
        (apply_rows TransactionRow.transaction_id insertTransaction
          updateTransactionOnConflict t1 empty_table batch) batch
        r.transaction_id = _
    rw [apply_rows_lookup TransactionRow.transaction_id insertTransaction
        updateTransactionOnConflict batch _ t2 r hnd hmem,
      apply_rows_lookup TransactionRow.transaction_id insertTransaction
        updateTransactionOnConflict batch _ t1 r hnd hmem]
    rfl
  · intro s r old now h
    have h1 := upsert_into_apply_key CustomerRow.customer_id
      insertCustomer updateCustomerOnConflict s r now
    rw [h] at h1
    exact h1
  · intro batch t1 t2 r hnd hmem
    have hload1 : load_customers empty_table batch t1 (fun _ => false) =
        (apply_rows CustomerRow.customer_id insertCustomer
          updateCustomerOnConflict t1 empty_table batch, none) :=
      load_batch_no_fail _ _ _ _ _ _ _ (fun x _ => rfl)
    have hload2 : load_customers
        (load_customers empty_table batch t1 (fun _ => false)).1
        batch t2 (fun _ => false) =
        (apply_rows CustomerRow.customer_id insertCustomer
          updateCustomerOnConflict t2
          (load_customers empty_table batch t1 (fun _ => false)).1 batch,
          none) :=
      load_batch_no_fail _ _ _ _ _ _ _ (fun x _ => rfl)
    rw [hload2, hload1]
    show apply_rows CustomerRow.customer_id insertCustomer
        updateCustomerOnConflict t2
        (apply_rows CustomerRow.customer_id insertCustomer
          updateCustomerOnConflict t1 empty_table batch) batch
        r.customer_id = _
    rw [apply_rows_lookup CustomerRow.customer_id insertCustomer
        updateCustomerOnConflict batch _ t2 r hnd hmem,
      apply_rows_lookup CustomerRow.customer_id insertCustomer
        updateCustomerOnConflict batch _ t1 r hnd hmem]
    rfl

/-- C1 witness: the upsert-semantics theorem applied to the sample rows and
sample staging tables, with every hypothesis discharged at those concrete
inputs. -/
theorem c1_witness :
    (upsert_transaction sample_transaction_table sample_transaction 5
        sample_transaction.transaction_id = some
      { transaction_id := sample_stored_transaction.transaction_id
        transaction_date := sample_stored_transaction.transaction_date
        transaction_time := sample_stored_transaction.transaction_time
        branch_id := sample_stored_transaction.branch_id
        customer_id := sample_stored_transaction.customer_id
        product_id := sample_stored_transaction.product_id
        amount := sample_stored_transaction.amount
        transaction_type_id := sample_stored_transaction.transaction_type_id
        employee_id := sample_stored_transaction.employee_id
        channel_id := sample_stored_transaction.channel_id
        status := sample_transaction.status
        is_weekend := sample_stored_transaction.is_weekend
        is_holiday := sample_stored_transaction.is_holiday
        last_updated := some 5 }) ∧
    ((load_transactions
        (load_transactions empty_table [sample_transaction] 3 (fun _ => false)).1
        [sample_transaction] 5 (fun _ => false)).1
        sample_transaction.transaction_id = some
      { transaction_id := sample_transaction.transaction_id
        transaction_date := sample_transaction.transaction_date
        transaction_time := sample_transaction.transaction_time
        branch_id := sample_transaction.branch_id
        customer_id := sample_transaction.customer_id
        product_id := sample_transaction.product_id
        amount := sample_transaction.amount
        transaction_type_id := sample_transaction.transaction_type_id
        employee_id := sample_transaction.employee_id
        channel_id := sample_transaction.channel_id
        status := sample_transaction.status
        is_weekend := sample_transaction.is_weekend
        is_holiday := sample_transaction.is_holiday
        last_updated := some 5 }) ∧
    (upsert_customer sample_customer_table sample_customer 5
        sample_customer.customer_id = some
      { customer_id := sample_stored_customer.customer_id
        first_name := sample_stored_customer.first_name
        last_name := sample_stored_customer.last_name
        date_of_birth := sample_stored_customer.date_of_birth
        address := sample_stored_customer.address
        city := sample_stored_customer.city
        state := sample_stored_customer.state
        zip_code := sample_stored_customer.zip_code
        email := sample_stored_customer.email
        phone := sample_stored_customer.phone
        customer_segment_id := sample_stored_customer.customer_segment_id
        acquisition_date := sample_stored_customer.acquisition_date
        last_interaction_date := sample_customer.last_interaction_date
        satisfaction_score := sample_customer.satisfaction_score
        nps_score := sample_customer.nps_score
        status := sample_customer.status
        age := sample_stored_customer.age
        customer_tenure_days := sample_stored_customer.customer_tenure_days
        last_updated := some 5 }) ∧
    ((load_customers
        (load_customers empty_table [sample_customer] 3 (fun _ => false)).1
        [sample_customer] 5 (fun _ => false)).1
        sample_customer.customer_id = some
      { customer_id := sample_customer.customer_id
        first_name := sample_customer.first_name
        last_name := sample_customer.last_name
        date_of_birth := sample_customer.date_of_birth
        address := sample_customer.address
        city := sample_customer.city
        state := sample_customer.state
        zip_code := sample_customer.zip_code
        email := sample_customer.email
        phone := sample_customer.phone
        customer_segment_id := sample_customer.customer_segment_id
        acquisition_date := sample_customer.acquisition_date
        last_interaction_date := sample_customer.last_interaction_date
        satisfaction_score := sample_customer.satisfaction_score
        nps_score := sample_customer.nps_score
        status := sample_customer.status
        age := sample_customer.age
        customer_tenure_days := sample_customer.customer_tenure_days
        last_updated := some 5 }) :=
  ⟨c1_upsert_overwrites_only_mutable_fields.1 sample_transaction_table
      sample_transaction sample_stored_transaction 5 rfl,
    c1_upsert_overwrites_only_mutable_fields.2.1 [sample_transaction] 3 5
      sample_transaction (by decide) (List.mem_singleton_self _),
    c1_upsert_overwrites_only_mutable_fields.2.2.1 sample_customer_table
      sample_customer sample_stored_customer 5 rfl,
    c1_upsert_overwrites_only_mutable_fields.2.2.2 [sample_customer] 3 5
      sample_customer (by decide) (List.mem_singleton_self _)⟩

/-- C3 counterexample: a run in which `load_transactions` raises (a
LoadError inside the transaction sub-pipeline).  The claim says such a
failure never prevents the customer sub-pipeline from executing; actually
the error propagates out of `run_daily_etl` and none of the customer
stages (extract, transform, load) is ever attempted. -/
theorem c3_counterexample :
    (run_daily_etl etl_load_transactions_fails).2 = some EtlStep.loadTransactions ∧
      ¬EtlStep.extractCustomers ∈ (run_daily_etl etl_load_transactions_fails).1 ∧
      ¬EtlStep.transformCustomers ∈ (run_daily_etl etl_load_transactions_fails).1 ∧
      ¬EtlStep.loadCustomers ∈ (run_daily_etl etl_load_transactions_fails).1 := by
  decide

/-- C3 amended: a failure raised inside the transaction sub-pipeline aborts
the entire run — the exception propagates out of `run_daily_etl` and the
customer sub-pipeline (extract, transform, load) never executes; the
customer sub-pipeline runs only when every transaction stage succeeded
(a failure in the customer sub-pipeline, which runs second, leaves the
already-completed transaction stages executed). -/
theorem c3_transaction_failure_blocks_customers :
    ∀ (ok : EtlStep → Bool),
      ((ok EtlStep.extractTransactions = false ∨
        ok EtlStep.transformTransactions = false ∨
        ok EtlStep.loadTransactions = false) →
        ((run_daily_etl ok).2.isSome = true ∧
          ¬EtlStep.extractCustomers ∈ (run_daily_etl ok).1 ∧
          ¬EtlStep.transformCustomers ∈ (run_daily_etl ok).1 ∧
          ¬EtlStep.loadCustomers ∈ (run_daily_etl ok).1)) ∧
      ((ok EtlStep.extractTransactions = true ∧
        ok EtlStep.transformTransactions = true ∧
        ok EtlStep.loadTransactions = true) →
        EtlStep.extractCustomers ∈ (run_daily_etl ok).1) := by
  intro ok
  constructor
  · intro h
    cases hE : ok EtlStep.extractTransactions <;>
      cases hT : ok EtlStep.transformTransactions <;>
        cases hL : ok EtlStep.loadTransactions <;>
          simp_all [run_daily_etl, run_etl_steps, pipeline_steps]
  · intro h
    cases hC : ok EtlStep.extractCustomers <;>
      simp_all [run_daily_etl, run_etl_steps, pipeline_steps]

/-- C3 witness: the containment-failure theorem applied to the concrete
outcome where only `load_transactions` raises, and — for the second
implication — to the all-success outcome, discharging each hypothesis at
those inputs. -/
theorem c3_witness :
    ((run_daily_etl etl_load_transactions_fails).2.isSome = true ∧
      ¬EtlStep.extractCustomers ∈ (run_daily_etl etl_load_transactions_fails).1 ∧
      ¬EtlStep.transformCustomers ∈ (run_daily_etl etl_load_transactions_fails).1 ∧
      ¬EtlStep.loadCustomers ∈ (run_daily_etl etl_load_transactions_fails).1) ∧
      EtlStep.extractCustomers ∈ (run_daily_etl (fun _ => true)).1 :=
  ⟨(c3_transaction_failure_blocks_customers etl_load_transactions_fails).1
      (Or.inr (Or.inr (by decide))),
    (c3_transaction_failure_blocks_customers (fun _ => true)).2 ⟨rfl, rfl, rfl⟩⟩

/-- C6 (code bug): `transform_customers` never returns normally.  Line 139
of etl_processes.py reads the `years` attribute of the pandas timedelta
accessor built from `datetime.now() - date_of_birth`; TimedeltaProperties
has no such attribute, so every call raises AttributeError before the
tenure derivation and the score filtering are reached — the claimed
filtering + enriching map is never produced. -/
theorem c6_transform_customers_always_raises :
    ∀ (now : Nat) (df : List RawCustomerRow),
      transform_customers now df =
        Except.error
          "AttributeError: TimedeltaProperties object has no attribute years" := by
  intro now df
  rfl
